import Mathlib

/-!
Verification of the job lifecycle / queue coordination subsystem of the
knee-pipeline segmentation backend.

The Python sources are shallowly embedded as executable Lean definitions:
text is `List Char`, the Redis hash / sorted-set / list structures are
explicit functional data, and Python float arithmetic of the form
`int((a / b) * 100)` is modelled as exact natural division `(100 * a) / b`
(the two agree on every concrete value reachable in the modelled code
paths, which only divide by the fixed step totals 4, 5, 10 and 100).
-/

namespace KneePipeline

/-! ### Character/string helpers modelling Python `str` operations -/

/-- Python `\s` (whitespace class) restricted to ASCII, as produced by the
pipeline's output lines. -/
def isPySpace (c : Char) : Bool :=
  c == ' ' || c == '\t' || c == '\n' || c == '\r' || c == '\x0b' || c == '\x0c'

/-- Lowercasing, modelling Python `str.lower` on ASCII text. -/
def pyLower (l : List Char) : List Char :=
  l.map Char.toLower

/-- Whitespace stripping at both ends, modelling Python `str.strip()`. -/
def pyStrip (l : List Char) : List Char :=
  ((l.dropWhile isPySpace).reverse.dropWhile isPySpace).reverse

/-- Does `pat` occur at the head of `hay`? -/
def leadsWith : List Char → List Char → Bool
  | _, [] => true
  | [], _ :: _ => false
  | h :: hs, p :: ps => h == p && leadsWith hs ps

/-- Substring test, modelling Python `pat in hay`. -/
def containsSub : List Char → List Char → Bool
  | [], pat => pat.isEmpty
  | h :: t, pat => leadsWith (h :: t) pat || containsSub t pat

/-- Suffix of `hay` following the first occurrence of `pat`, if any. -/
def dropAfterFirst : List Char → List Char → Option (List Char)
  | [], pat => if pat.isEmpty then some [] else none
  | h :: t, pat =>
    if leadsWith (h :: t) pat then some ((h :: t).drop pat.length)
    else dropAfterFirst t pat

/-- Existence of a match of the regex `a.*b` in `hay`: an occurrence of `a`
followed, at or after its end, by an occurrence of `b`.  Searching from the
first occurrence of `a` is complete, since any `b` lying after a later
occurrence of `a` also lies after the first one. -/
def seqContains (hay a b : List Char) : Bool :=
  match dropAfterFirst hay a with
  | some rest => containsSub rest b
  | none => false

/-- Value of a digit string, as read by Python `int`. -/
def digitsToNat (ds : List Char) : Nat :=
  ds.foldl (fun acc c => acc * 10 + (c.toNat - 48)) 0

/-! ### Progress Translator — `backend/services/progress_parser.py` -/

/-- Parsed progress information (`ProgressUpdate` dataclass; the `substep`
field is always `None` in the embedded code paths and is omitted). -/
structure ProgressUpdate where
  step : Nat
  total_steps : Nat
  step_name : String
  percent : Nat
deriving DecidableEq, Repr

/-- Total steps in the full pipeline (`TOTAL_STEPS = 10`). -/
def TOTAL_STEPS : Nat := 10

/-- The ordered keyword/regex pattern table `STEP_PATTERNS`: a match
predicate on the lowercased stripped line, the step number, and the step
name. -/
def STEP_PATTERNS : List ((List Char → Bool) × Nat × String) :=
  [ (fun l => seqContains l "loading".toList "model".toList, 1, "Loading segmentation model"),
    (fun l => containsSub l "preprocessing".toList, 2, "Preprocessing image"),
    (fun l => seqContains l "running".toList "segmentation".toList, 3, "Running segmentation"),
    (fun l => containsSub l "postprocessing".toList, 4, "Postprocessing results"),
    (fun l => seqContains l "generating".toList "mesh".toList, 5, "Generating 3D meshes"),
    (fun l => seqContains l "calculating".toList "thickness".toList, 6, "Calculating cartilage thickness"),
    (fun l => seqContains l "running".toList "nsm".toList || containsSub l "neural shape model".toList, 7, "Running Neural Shape Model"),
    (fun l => seqContains l "computing".toList "bscore".toList, 8, "Computing BScore"),
    (fun l => seqContains l "saving".toList "results".toList, 9, "Saving results"),
    (fun l => containsSub l "complete".toList || containsSub l "finished".toList || containsSub l "done".toList, 10, "Complete") ]

/-- First matching entry of `STEP_PATTERNS` on the lowercased stripped
line (the `for pattern, step, step_name in STEP_PATTERNS` loop). -/
def findStep (ll : List Char) : Option (Nat × String) :=
  (STEP_PATTERNS.find? (fun p => p.1 ll)).map (fun p => (p.2.1, p.2.2))

/-- Attempt to parse `\s*(\d+)/(\d+):\s*(.+)` directly after a
`[PROGRESS]` tag.  The `(.+)` group requires at least one non-newline
character; its stripped value is the step name. -/
def markerAfterTag (rest : List Char) : Option ProgressUpdate :=
  let r1 := rest.dropWhile isPySpace
  let d1 := r1.takeWhile Char.isDigit
  if d1.isEmpty then none else
  match r1.drop d1.length with
  | '/' :: r2 =>
    let d2 := r2.takeWhile Char.isDigit
    if d2.isEmpty then none else
    (match r2.drop d2.length with
     | ':' :: r3 =>
       if r3.any (fun c => c != '\n') then
         let step := digitsToNat d1
         let total := digitsToNat d2
         some ⟨step, total, String.mk (pyStrip r3), (100 * step) / total⟩
       else none
     | _ => none)
  | _ => none

/-- Search for the explicit structured marker
`\[PROGRESS\]\s*(\d+)/(\d+):\s*(.+)` anywhere in the original line,
scanning start positions left to right as `re.search` does. -/
def markerSearch : List Char → Option ProgressUpdate
  | [] => none
  | c :: rest =>
    if leadsWith (c :: rest) "[PROGRESS]".toList then
      match markerAfterTag ((c :: rest).drop 10) with
      | some u => some u
      | none => markerSearch rest
    else markerSearch rest

/-- Try the percent regex `(\d{1,3})%` at the head of `l` with the match
length `n` (the greedy engine tries 3, then 2, then 1 digits). -/
def pctTryLen (l : List Char) (n : Nat) : Option Nat :=
  let ds := l.take n
  if ds.length == n && ds.all Char.isDigit && (l.drop n).head? == some '%' then
    some (digitsToNat ds)
  else none

/-- Greedy attempt at one start position: 3 digits, then 2, then 1. -/
def pctAt (l : List Char) : Option Nat :=
  match pctTryLen l 3 with
  | some v => some v
  | none =>
    match pctTryLen l 2 with
    | some v => some v
    | none => pctTryLen l 1

/-- Left-to-right scan for the first match of `(\d{1,3})%`. -/
def pctScan : List Char → Option Nat
  | [] => none
  | c :: rest =>
    match pctAt (c :: rest) with
    | some v => some v
    | none => pctScan rest

/-- Percentage-marker branch of the parser: `percent = min(NN, 100)`,
`step = max(1, int((percent / 100) * TOTAL_STEPS))`. -/
def pctSearch (line : List Char) : Option ProgressUpdate :=
  match pctScan line with
  | none => none
  | some v =>
    let percent := min v 100
    let step := max 1 ((percent * TOTAL_STEPS) / 100)
    some ⟨step, TOTAL_STEPS, "Processing...", percent⟩

/-- Keyword branch of the parser applied to the lowercased stripped line:
`percent = int((step / TOTAL_STEPS) * 100)`. -/
def kwSearch (ll : List Char) : Option ProgressUpdate :=
  match findStep ll with
  | some (step, name) => some ⟨step, TOTAL_STEPS, name, (100 * step) / TOTAL_STEPS⟩
  | none => none

/-- The full `parse_progress_line`: the `STEP_PATTERNS` keyword loop runs
first on `line.lower().strip()`, then the `[PROGRESS]` structured marker
is searched in the raw line, then the bare percentage marker; `none`
models the Python `None` return. -/
def parse_progress_line (line : List Char) : Option ProgressUpdate :=
  match kwSearch (pyStrip (pyLower line)) with
  | some u => some u
  | none =>
    match markerSearch line with
    | some u => some u
    | none => pctSearch line

/-! ### Error Classifier — `backend/services/error_handler.py` -/

/-- The closed `ErrorCode` enumeration. -/
inductive ErrorCode where
  | GPU_OOM
  | TIMEOUT
  | INVALID_FORMAT
  | FILE_NOT_FOUND
  | DICOM_ERROR
  | SEGMENTATION_FAILED
  | NSM_FAILED
  | CONFIG_ERROR
  | PIPELINE_ERROR
deriving DecidableEq, Repr

/-- Does any phrase of the group occur in the (already lowercased) text?
Models `any(phrase in output_lower for phrase in [...])`. -/
def anyPhrase (ll : List Char) (phrases : List String) : Bool :=
  phrases.any (fun p => containsSub ll p.toList)

def gpuPhrases : List String :=
  ["cuda out of memory", "out of memory", "cuda error", "cudnn error", "gpu memory", "oom"]

def notFoundPhrases : List String :=
  ["not found", "does not exist", "no such file"]

def invalidFormatPhrases : List String :=
  ["invalid format", "cannot read", "unsupported format", "not a valid"]

def dicomPhrases : List String :=
  ["dicom", "dcm error", "no dicom"]

def segmentationPhrases : List String :=
  ["segmentation failed", "segmentation error", "no segmentation"]

def nsmPhrases : List String :=
  ["nsm error", "nsm failed", "shape model", "bscore error"]

def configPhrases : List String :=
  ["config error", "invalid config", "missing config"]

/-- The `parse_error_from_output` cascade over the lowercased output. -/
def parse_error_from_output (output : List Char) : ErrorCode :=
  let ll := pyLower output
  if anyPhrase ll gpuPhrases then .GPU_OOM
  else if containsSub ll "timeout".toList then .TIMEOUT
  else if anyPhrase ll notFoundPhrases then .FILE_NOT_FOUND
  else if anyPhrase ll invalidFormatPhrases then .INVALID_FORMAT
  else if anyPhrase ll dicomPhrases then .DICOM_ERROR
  else if anyPhrase ll segmentationPhrases then .SEGMENTATION_FAILED
  else if anyPhrase ll nsmPhrases then .NSM_FAILED
  else if anyPhrase ll configPhrases then .CONFIG_ERROR
  else .PIPELINE_ERROR

/-- The `_map_exception_to_code` rule set used when no output is
available.  An exception is modelled by its type name and its `str`
value. -/
def map_exception_to_code (excType : String) (excStr : List Char) : ErrorCode :=
  let ll := pyLower excStr
  if excType == "TimeoutError" || containsSub ll "timeout".toList then .TIMEOUT
  else if containsSub ll "memory".toList || containsSub ll "oom".toList then .GPU_OOM
  else if containsSub ll "not found".toList then .FILE_NOT_FOUND
  else if excType == "FileNotFoundError" then .FILE_NOT_FOUND
  else if containsSub ll "format".toList || containsSub ll "read".toList then .INVALID_FORMAT
  else .PIPELINE_ERROR

/-- The `format_error_for_job` entry point: output-based classification
takes priority whenever a non-empty output string is available. -/
def format_error_for_job (excType : String) (excStr : List Char)
    (output : Option (List Char)) : ErrorCode :=
  match output with
  | some o => if o.isEmpty then map_exception_to_code excType excStr else parse_error_from_output o
  | none => map_exception_to_code excType excStr

/-! ### Wait Estimator — `backend/services/job_service.py`

Durations are Python floats stored in the Redis list `processing_times`;
they are modelled as exact rationals. -/

/-- Truncation toward zero, modelling Python `int()` on a float/rational. -/
def pyInt (q : ℚ) : ℤ :=
  if 0 ≤ q then ⌊q⌋ else ⌈q⌉

/-- The `get_average_processing_time` computation: `lrange` of the first
20 entries, defaulting to 240 seconds when empty. -/
def get_average_processing_time (times : List ℚ) : ℚ :=
  let ts := times.take 20
  if ts.isEmpty then 240 else ts.sum / ts.length

/-- The `get_estimated_wait` computation: `int(queue_position * avg_time)`. -/
def get_estimated_wait (queue_position : ℤ) (times : List ℚ) : ℤ :=
  pyInt (queue_position * get_average_processing_time times)

/-- The `record_processing_time` update: `lpush` then `ltrim 0 19`. -/
def record_processing_time (duration_seconds : ℚ) (times : List ℚ) : List ℚ :=
  (duration_seconds :: times).take 20

/-! ### Queue Index — a model of the Redis sorted set `job_queue` -/

/-- A Redis sorted set: members with scores, each member occurring at
most once.  Redis orders entries by ascending score, ties broken by
lexicographic member order; `zrank` is computed here by counting the
entries that sort strictly before the queried member. -/
structure ZSet where
  entries : List (String × ℚ)
deriving DecidableEq

/-- The empty sorted set. -/
def ZSet.empty : ZSet := ⟨[]⟩

/-- Score of a member, if present (`zscore`). -/
def ZSet.score (z : ZSet) (m : String) : Option ℚ :=
  (z.entries.find? (fun e => e.1 == m)).map (fun e => e.2)

/-- Insert or update a member (`zadd`): re-adding an existing member
updates its score. -/
def ZSet.add (z : ZSet) (m : String) (s : ℚ) : ZSet :=
  ⟨(m, s) :: z.entries.filter (fun e => e.1 ≠ m)⟩

/-- Remove a member (`zrem`); removing an absent member is a no-op. -/
def ZSet.remove (z : ZSet) (m : String) : ZSet :=
  ⟨z.entries.filter (fun e => e.1 ≠ m)⟩

/-- Membership test. -/
def ZSet.mem (z : ZSet) (m : String) : Bool :=
  z.entries.any (fun e => e.1 == m)

/-- Does entry `e` sort strictly before member `m` with score `s` in the
Redis ordering (ascending score, lexicographic member tie-break)? -/
def zBefore (e : String × ℚ) (m : String) (s : ℚ) : Bool :=
  decide (e.2 < s) || (e.2 == s && decide (e.1 < m))

/-- Zero-based rank of a member (`zrank`): `none` when absent, else the
number of entries sorting strictly before it. -/
def ZSet.rank (z : ZSet) (m : String) : Option Nat :=
  match z.score m with
  | none => none
  | some s => some ((z.entries.filter (fun e => zBefore e m s)).length)

/-- Number of members (`zcard`). -/
def ZSet.card (z : ZSet) : Nat :=
  z.entries.length

/-- The `Job.get_queue_position` classmethod: `zrank + 1`, or `0` when
the job is not in the queue. -/
def get_queue_position (job_id : String) (z : ZSet) : Nat :=
  match z.rank job_id with
  | some r => r + 1
  | none => 0

/-! ### Job Record and store — `backend/models/job.py`

Timestamps (ISO strings in Redis) are modelled as rational epoch seconds;
`created_at` is the value whose `.timestamp()` the `save` method uses as
the sorted-set score. -/

/-- The `Job` dataclass fields relevant to the lifecycle. -/
structure JobRecord where
  id : String
  input_filename : String
  input_path : String
  status : String
  created_at : ℚ
  started_at : Option ℚ
  completed_at : Option ℚ
  progress_percent : Nat
  current_step : Nat
  total_steps : Nat
  step_name : String
  result_path : Option String
  result_size_bytes : Option ℤ
  error_message : Option String
  error_code : Option ErrorCode
  retain_for_research : Bool
  email : Option String
deriving DecidableEq, Repr

/-- The Redis state touched by the lifecycle subsystem: the `jobs` hash,
the `job_queue` sorted set, the `processing_times` list, and the
processed-jobs counter maintained by the statistics collaborator. -/
structure Store where
  jobs : List (String × JobRecord)
  job_queue : ZSet
  processing_times : List ℚ
  processed_count : Nat
deriving DecidableEq

/-- Overwrite a hash field (`hset`). -/
def hset (h : List (String × JobRecord)) (k : String) (v : JobRecord) :
    List (String × JobRecord) :=
  (k, v) :: h.filter (fun e => e.1 ≠ k)

/-- Read a hash field (`hget`). -/
def hget (h : List (String × JobRecord)) (k : String) : Option JobRecord :=
  (h.find? (fun e => e.1 == k)).map (fun e => e.2)

/-- The `Job.save` method: persist to the `jobs` hash and, when the
status is `queued`, also track the id in the `job_queue` sorted set with
the `created_at` timestamp as score. -/
def Job.save (st : Store) (j : JobRecord) : Store :=
  let st1 := { st with jobs := hset st.jobs j.id j }
  if j.status = "queued" then
    { st1 with job_queue := st1.job_queue.add j.id j.created_at }
  else st1

/-- The `Job.delete_from_queue` method. -/
def Job.delete_from_queue (st : Store) (j : JobRecord) : Store :=
  { st with job_queue := st.job_queue.remove j.id }

/-- The `Job.load` classmethod: `none` models the `None` return. -/
def Job.load (st : Store) (job_id : String) : Option JobRecord :=
  hget st.jobs job_id

/-- Status field of the persisted record of a job. -/
def jobStatus (st : Store) (job_id : String) : Option String :=
  (Job.load st job_id).map (fun j => j.status)

/-! ### Error messages stored on failed jobs (`ERROR_MESSAGES`) -/

/-- The `message` field of `ERROR_MESSAGES`. -/
def error_message_of : ErrorCode → String
  | .GPU_OOM => "The GPU ran out of memory while processing your file."
  | .TIMEOUT => "Processing took longer than expected and was stopped."
  | .INVALID_FORMAT => "The uploaded file format is not supported."
  | .FILE_NOT_FOUND => "The uploaded file could not be found."
  | .DICOM_ERROR => "The DICOM files could not be read properly."
  | .SEGMENTATION_FAILED => "The segmentation step failed to complete."
  | .NSM_FAILED => "Neural Shape Model analysis failed."
  | .CONFIG_ERROR => "There was an error with the processing configuration."
  | .PIPELINE_ERROR => "An unexpected error occurred during processing."

/-- The `recovery_hint` field of `ERROR_MESSAGES`. -/
def recovery_hint_of : ErrorCode → String
  | .GPU_OOM => "Try reducing the batch size, using a different segmentation model, or processing a smaller image."
  | .TIMEOUT => "Your file may be very large. Try processing a smaller region or contact support."
  | .INVALID_FORMAT => "Please upload a NIfTI (.nii, .nii.gz), NRRD (.nrrd), or DICOM zip file."
  | .FILE_NOT_FOUND => "Please try uploading the file again."
  | .DICOM_ERROR => "Ensure the zip contains a valid DICOM series. Try converting to NIfTI format."
  | .SEGMENTATION_FAILED => "The image quality may be insufficient. Try a different segmentation model."
  | .NSM_FAILED => "Try running without NSM, or use bone-only analysis instead."
  | .CONFIG_ERROR => "Please try again with default settings or contact support."
  | .PIPELINE_ERROR => "Please try again. If the problem persists, contact support."

/-- Job-stored message: `f"{error_info.message} {error_info.recovery_hint}"`. -/
def combined_job_message (c : ErrorCode) : String :=
  error_message_of c ++ " " ++ recovery_hint_of c

/-! ### Pipeline invocation model — `backend/workers/pipeline_worker.py`
and `backend/workers/dummy_worker.py` -/

/-- A caught Python exception: its type name, its `str` value, and its
`output` attribute when one exists. -/
structure ExceptionInfo where
  excType : String
  message : String
  output : Option String
deriving DecidableEq, Repr

/-- Last line of the (already lowercased) error output, as produced by
`error_output.strip().split(chr(10))[-1][:200]`. -/
def lastLineFallback (ll : List Char) : String :=
  String.mk ((((pyStrip ll).reverse.takeWhile (fun c => c != '\n')).reverse).take 200)

/-- The `_parse_pipeline_error` helper of the real pipeline worker. -/
def parse_pipeline_error (error_output : List Char) : String :=
  let ll := pyLower error_output
  if containsSub ll "out of memory".toList || containsSub ll "cuda out of memory".toList then
    "GPU ran out of memory. Try a smaller file or contact support."
  else if containsSub ll "no such file".toList || containsSub ll "not found".toList then
    "Input file could not be read. Please check the file format."
  else if containsSub ll "invalid".toList && containsSub ll "format".toList then
    "Invalid file format. Supported formats: NIfTI, NRRD, DICOM."
  else if containsSub ll "permission denied".toList then
    "Permission denied when accessing files."
  else if containsSub ll "segmentation failed".toList then
    "Segmentation failed. The image quality may be insufficient."
  else lastLineFallback ll

/-- The wall-clock timeout (`PIPELINE_TIMEOUT_SECONDS = 1800`). -/
def PIPELINE_TIMEOUT_SECONDS : Nat := 1800

/-- Outcome of the real pipeline subprocess as observed by
`run_real_pipeline`. -/
inductive PipelineOutcome where
  | success (resultPath : String) (resultSize : ℤ)
  | subprocessFailed (errOutput : List Char)
  | timeout
  | verifyFailed
deriving DecidableEq

/-- Outcome of the dummy pipeline as observed by `dummy_pipeline`. -/
inductive DummyOutcome where
  | success (resultPath : String) (resultSize : ℤ)
  | readFailed (detail : String)
deriving DecidableEq

/-- Which pipeline the task ran (`_should_use_real_pipeline`: real unless
the `USE_DUMMY_PIPELINE=1` environment variable selects the dummy) and
how it went. -/
inductive PipelineRun where
  | real (o : PipelineOutcome)
  | dummy (o : DummyOutcome)
deriving DecidableEq

/-! ### Job Orchestrator — `backend/workers/tasks.py`

One run of `process_pipeline` is modelled as a sequence of atomic store
events (each event is one mutate-and-persist block of the Python code)
folded over the store together with the in-memory `job` object. -/

/-- Atomic store events performed by one task run.  `cleanup` is
`cleanup_gpu_memory` (GPU cache release, synchronize, garbage collection
and a one-second settling delay); it does not touch the store. -/
inductive Ev where
  | startProcessing (t : ℚ)
  | progress (step total : Nat) (name : String)
  | markComplete (t : ℚ) (resultPath : String) (size : ℤ)
  | markError (code : ErrorCode) (msg : String)
  | recordStats (duration : ℚ)
  | cleanup
deriving DecidableEq

/-- The worker's in-flight state: the persisted store plus the in-memory
`job` object the task mutates before each `save`. -/
structure TaskState where
  store : Store
  job : JobRecord
deriving DecidableEq

/-- Effect of one event, mirroring the corresponding Python block:
mutate the in-memory job, then persist. -/
def applyEv (ts : TaskState) : Ev → TaskState
  | .startProcessing t =>
    let j := { ts.job with status := "processing", started_at := some t }
    ⟨Job.save (Job.delete_from_queue ts.store j) j, j⟩
  | .progress step total name =>
    let j := { ts.job with current_step := step, total_steps := total, step_name := name, progress_percent := (100 * step) / total }
    ⟨Job.save ts.store j, j⟩
  | .markComplete t path size =>
    let j := { ts.job with status := "complete", progress_percent := 100, completed_at := some t, result_path := some path, result_size_bytes := some size }
    ⟨Job.save ts.store j, j⟩
  | .markError code msg =>
    let j := { ts.job with status := "error", error_message := some msg, error_code := some code }
    ⟨Job.save ts.store j, j⟩
  | .recordStats d =>
    ⟨{ ts.store with processing_times := record_processing_time d ts.store.processing_times, processed_count := ts.store.processed_count + 1 }, ts.job⟩
  | .cleanup => ts

/-- Progress-callback invocations and the in-pipeline cleanup performed
by `run_real_pipeline` before it returns or raises. -/
def realPipelineEvents : PipelineOutcome → List Ev
  | .success _ _ =>
    [.progress 1 5 "Preparing pipeline", .progress 2 5 "Running segmentation",
     .progress 3 5 "Verifying outputs", .progress 4 5 "Packaging results",
     .progress 5 5 "Cleaning up", .cleanup]
  | .subprocessFailed _ =>
    [.progress 1 5 "Preparing pipeline", .progress 2 5 "Running segmentation"]
  | .timeout =>
    [.progress 1 5 "Preparing pipeline", .progress 2 5 "Running segmentation"]
  | .verifyFailed =>
    [.progress 1 5 "Preparing pipeline", .progress 2 5 "Running segmentation",
     .progress 3 5 "Verifying outputs"]

/-- Exception raised by `run_real_pipeline`, if any. -/
def realPipelineException : PipelineOutcome → Option ExceptionInfo
  | .success _ _ => none
  | .subprocessFailed errOut =>
    some ⟨"RuntimeError", "Pipeline failed: " ++ parse_pipeline_error errOut, none⟩
  | .timeout =>
    some ⟨"TimeoutError", "Pipeline exceeded 1800s timeout", none⟩
  | .verifyFailed =>
    some ⟨"RuntimeError", "Pipeline completed but expected output files are missing", none⟩

/-- Progress-callback invocations performed by `dummy_pipeline`. -/
def dummyPipelineEvents : DummyOutcome → List Ev
  | .success _ _ =>
    [.progress 1 4 "Validating input", .progress 2 4 "Processing image",
     .progress 3 4 "Generating results", .progress 4 4 "Packaging output"]
  | .readFailed _ =>
    [.progress 1 4 "Validating input"]

/-- Events of the selected pipeline. -/
def pipelineEvents : PipelineRun → List Ev
  | .real o => realPipelineEvents o
  | .dummy o => dummyPipelineEvents o

/-- Result of the selected pipeline: the returned `(path, size)` pair or
the raised exception. -/
def pipelineResult : PipelineRun → Except ExceptionInfo (String × ℤ)
  | .real (.success p s) => .ok (p, s)
  | .real o =>
    match realPipelineException o with
    | some e => .error e
    | none => .error ⟨"RuntimeError", "", none⟩
  | .dummy (.success p s) => .ok (p, s)
  | .dummy (.readFailed d) =>
    .error ⟨"ValueError", "Failed to read input image: " ++ d, none⟩

/-- The effective output text the generic `except` branch extracts:
`getattr(e, 'output', str(e))`. -/
def effectiveOutput (e : ExceptionInfo) : String :=
  match e.output with
  | some o => o
  | none => e.message

/-- Error code chosen by the task's `except` branches: the dedicated
`TimeoutError` branch calls `format_error_for_job(e)` with no output; the
generic branch passes `getattr(e, 'output', str(e))`. -/
def taskErrorCode (e : ExceptionInfo) : ErrorCode :=
  if e.excType == "TimeoutError" then
    format_error_for_job e.excType e.message.toList none
  else
    format_error_for_job e.excType e.message.toList (some (effectiveOutput e).toList)

/-- The retry budget configured on the task decorator (`max_retries=2`)
and in the Celery configuration (`task_max_retries=2`). -/
def celery_task_max_retries : Nat := 2

/-- What one of the task's `except` branches does with a failure: the
error code stored on the job, whether `_cleanup_after_error` ran, and
whether the exception was re-raised to Celery.  Both branches store the
classified code, clean up, and re-raise unconditionally. -/
structure FailureDisposition where
  errorCode : ErrorCode
  cleanupCalled : Bool
  reraised : Bool
deriving DecidableEq, Repr

/-- Failure handling of `process_pipeline` (lines 145-168): identical for
every exception — persist the classified error, clean up, re-raise. -/
def handleTaskFailure (e : ExceptionInfo) : FailureDisposition :=
  ⟨taskErrorCode e, true, true⟩

/-- The store events of one `process_pipeline` run after the job was
loaded successfully: the queued-to-processing block, the pipeline's
progress/cleanup activity, then the terminal block of the success path or
of the matching `except` branch. -/
def taskEvents (run : PipelineRun) (tStart tEnd : ℚ) : List Ev :=
  .startProcessing tStart ::
    (pipelineEvents run ++
      match pipelineResult run with
      | .ok (path, size) => [.markComplete tEnd path size, .recordStats (tEnd - tStart)]
      | .error e => [.markError (taskErrorCode e) (combined_job_message (taskErrorCode e)),
                     .cleanup])

/-- Successive task states produced by a list of events. -/
def runStates (ts : TaskState) : List Ev → List TaskState
  | [] => []
  | e :: rest =>
    let ts1 := applyEv ts e
    ts1 :: runStates ts1 rest

/-- Final state after a list of events. -/
def runEvents (ts : TaskState) (evs : List Ev) : TaskState :=
  evs.foldl applyEv ts

/-- Result of one `process_pipeline` invocation: the final store, the
events performed, whether the job-not-found `ValueError` was raised
before any state change, and whether an exception propagated to Celery. -/
structure TaskRun where
  finalStore : Store
  events : List Ev
  raisedNotFound : Bool
  reraised : Bool
deriving DecidableEq

/-- The `process_pipeline` Celery task.  When the job id is absent from
the `jobs` hash it raises `ValueError` before touching the store;
otherwise it performs the event sequence of the selected pipeline run and
re-raises the pipeline exception, if any, after its `except` handling. -/
def process_pipeline (st : Store) (job_id : String) (run : PipelineRun)
    (tStart tEnd : ℚ) : TaskRun :=
  match Job.load st job_id with
  | none => ⟨st, [], true, true⟩
  | some j =>
    let evs := taskEvents run tStart tEnd
    ⟨(runEvents ⟨st, j⟩ evs).store, evs, false,
      match pipelineResult run with
      | .ok _ => false
      | .error _ => true⟩

/-- Counts the `cleanup_gpu_memory` invocations in an event list. -/
def cleanupCount (evs : List Ev) : Nat :=
  evs.countP (fun e => match e with | .cleanup => true | _ => false)

/-- Counts the `delete_from_queue` invocations in an event list (only the
queued-to-processing block removes the id from the queue). -/
def queueRemovalCount (evs : List Ev) : Nat :=
  evs.countP (fun e => match e with | .startProcessing _ => true | _ => false)

/-! ### The monitoring loop of `run_pipeline_with_progress`

The line-consuming loop keeps `last_progress`, parses every output line,
and on each newly recognized update invokes the task's
`progress_callback`, which persists `int((step / total) * 100)`. -/

/-- Percent persisted by `progress_callback` for one update. -/
def callbackPercent (u : ProgressUpdate) : Nat :=
  (100 * u.step) / u.total_steps

/-- The loop body over output lines: parse, suppress an update equal to
`last_progress`, persist the percent of every other recognized update. -/
def lineLoopAux (last : Option ProgressUpdate) : List (List Char) → List Nat
  | [] => []
  | line :: rest =>
    match parse_progress_line line with
    | some u =>
      if some u = last then lineLoopAux last rest
      else callbackPercent u :: lineLoopAux (some u) rest
    | none => lineLoopAux last rest

/-- Percentages persisted for a stream of output lines, starting from
`last_progress = None`. -/
def persistedPercents (lines : List (List Char)) : List Nat :=
  lineLoopAux none lines

/-- Removal of consecutive duplicates, relative to a previously seen
element. -/
def dedupAux (last : Option ProgressUpdate) : List ProgressUpdate → List ProgressUpdate
  | [] => []
  | u :: rest =>
    if some u = last then dedupAux last rest
    else u :: dedupAux (some u) rest

/-! ### Claim-side vocabulary -/

/-- The spec's retry policy distinguishes transient infrastructure
classes (infrastructure/timeout/resource: `PIPELINE_ERROR`, `TIMEOUT`,
`GPU_OOM`) from non-retryable validation/format/content classes. -/
def isTransientCode : ErrorCode → Bool
  | .GPU_OOM => true
  | .TIMEOUT => true
  | .PIPELINE_ERROR => true
  | _ => false

/-- The transitions the spec's state machine allows between successive
persisted statuses (staying in place is not a transition). -/
def allowedTransition (a b : String) : Prop :=
  a = b ∨ (a = "queued" ∧ b = "processing") ∨
    (a = "processing" ∧ (b = "complete" ∨ b = "error"))

/-- Terminal statuses. -/
def terminalStatus (s : String) : Prop :=
  s = "complete" ∨ s = "error"

/-- The persisted status of the job across one task run: the status at
task start followed by the status after each store event. -/
def statusTraceOf (st : Store) (j : JobRecord) (run : PipelineRun) (tStart tEnd : ℚ) :
    List String :=
  j.status :: (runStates ⟨st, j⟩ (taskEvents run tStart tEnd)).map (fun s => s.job.status)

/-- A store with no jobs, an empty queue, and no history. -/
def emptyStore : Store :=
  ⟨[], ZSet.empty, [], 0⟩

/-- A concrete freshly created job record, as built by the upload
route (status `queued`, default progress fields). -/
def jobA : JobRecord :=
  ⟨"job-a", "scan.nii.gz", "/data/scan.nii.gz", "queued", 0, none, none,
   0, 0, 4, "", none, none, none, none, true, none⟩

/-! ## Sanity evaluations of the embedded definitions -/

example : parse_progress_line "[PROGRESS] 5/10: Computing thickness".toList =
    some ⟨5, 10, "Computing thickness", 50⟩ := by decide

example : parse_progress_line "Processing... 45%".toList =
    some ⟨4, 10, "Processing...", 45⟩ := by decide

example : parse_progress_line "2024-01-15 10:30:45 INFO Loading configuration".toList = none := by
  decide

example : parse_progress_line "Loading segmentation model from checkpoint...".toList =
    some ⟨1, 10, "Loading segmentation model", 10⟩ := by decide

example : get_estimated_wait 3 [] = 720 := by
  norm_num [get_estimated_wait, get_average_processing_time, pyInt]

/-! ## Helper lemmas -/

/-- Events never change the id of the in-memory job. -/
theorem applyEv_job_id (ts : TaskState) (ev : Ev) : (applyEv ts ev).job.id = ts.job.id := by
  cases ev <;> rfl

/-- Reading back a field just written to the hash. -/
theorem hget_hset_self (h : List (String × JobRecord)) (k : String) (v : JobRecord) :
    hget (hset h k v) k = some v := by
  simp [hget, hset, List.find?]

/-- Membership after a sorted-set insert. -/
theorem zset_mem_add_self (z : ZSet) (m : String) (s : ℚ) : (z.add m s).mem m = true := by
  simp [ZSet.add, ZSet.mem]

/-- Membership after a sorted-set removal. -/
theorem zset_mem_remove_self (z : ZSet) (m : String) : (z.remove m).mem m = false := by
  simp only [ZSet.remove, ZSet.mem]
  rw [List.any_eq_false]
  intro e he
  rcases List.mem_filter.mp he with ⟨_, hne⟩
  simp only [decide_eq_true_eq] at hne
  simp [hne]

/-- The line loop persists exactly the callback percent of each
recognized update that differs from the previously recognized one. -/
theorem lineLoopAux_eq_dedup (lines : List (List Char)) :
    ∀ last, lineLoopAux last lines =
      (dedupAux last (lines.filterMap parse_progress_line)).map callbackPercent := by
  induction lines with
  | nil => intro last; rfl
  | cons line rest ih =>
    intro last
    cases h : parse_progress_line line with
    | none => simp [lineLoopAux, h, List.filterMap_cons, ih]
    | some u =>
      by_cases he : some u = last
      · subst he
        simp [lineLoopAux, h, List.filterMap_cons, dedupAux, ih]
      · simp [lineLoopAux, h, he, List.filterMap_cons, dedupAux, ih]

/-! ## Claims -/

/-- C1 counterexample.  A line containing both a valid structured
`[PROGRESS] 2/4` marker and the keyword phrase `running segmentation` is
parsed by the keyword table, not by the structured marker: the marker
branch would yield step 2 of 4 at 50 percent, but `parse_progress_line`
returns step 3 of 10 at 30 percent, so the claimed
structured-marker-first priority is false. -/
theorem keyword_beats_structured_marker :
    markerSearch "[PROGRESS] 2/4: running segmentation".toList =
      some ⟨2, 4, "running segmentation", 50⟩ ∧
    parse_progress_line "[PROGRESS] 2/4: running segmentation".toList =
      some ⟨3, 10, "Running segmentation", 30⟩ ∧
    (some (⟨3, 10, "Running segmentation", 30⟩ : ProgressUpdate) ≠
      some (⟨2, 4, "running segmentation", 50⟩ : ProgressUpdate)) := by
  refine ⟨by decide, by decide, by decide⟩

/-- C1 (amended).  `parse_progress_line` tries the keyword/phrase table
first on the lowercased stripped line, then the structured
`[PROGRESS] step/total: name` marker on the raw line, then the bare
percentage marker, first match winning; a line matching an earlier stage
is never parsed by a later one. -/
theorem parse_progress_priority_order (line : List Char) :
    (∀ u, kwSearch (pyStrip (pyLower line)) = some u → parse_progress_line line = some u) ∧
    (kwSearch (pyStrip (pyLower line)) = none →
      ∀ u, markerSearch line = some u → parse_progress_line line = some u) ∧
    (kwSearch (pyStrip (pyLower line)) = none → markerSearch line = none →
      parse_progress_line line = pctSearch line) := by
  refine ⟨?_, ?_, ?_⟩
  · intro u h; simp [parse_progress_line, h]
  · intro h u h2; simp [parse_progress_line, h, h2]
  · intro h h2; simp [parse_progress_line, h, h2]

/-- C1 witness: the priority order instantiated on one line per stage. -/
theorem parse_progress_priority_order_witness :
    parse_progress_line "Preprocessing image data...".toList =
      some ⟨2, 10, "Preprocessing image", 20⟩ ∧
    parse_progress_line "[PROGRESS] 5/10: Computing thickness".toList =
      some ⟨5, 10, "Computing thickness", 50⟩ ∧
    parse_progress_line "Processing... 45%".toList =
      some ⟨4, 10, "Processing...", 45⟩ :=
  ⟨(parse_progress_priority_order _).1 _ (by decide),
   (parse_progress_priority_order _).2.1 (by decide) _ (by decide),
   by rw [(parse_progress_priority_order _).2.2 (by decide) (by decide)]; decide⟩

/-- C2 counterexample.  When the dummy pipeline is selected
(`USE_DUMMY_PIPELINE=1`) and the run succeeds, the task performs no
`cleanup_gpu_memory` call at all, so the release step is not invoked on
every exit path of every run. -/
theorem dummy_success_skips_cleanup :
    cleanupCount (taskEvents (.dummy (.success "results.zip" 1)) 0 10) = 0 ∧
    ¬ (1 ≤ cleanupCount (taskEvents (.dummy (.success "results.zip" 1)) 0 10)) := by
  refine ⟨by decide, by decide⟩

/-- C2 (amended).  Whenever the real pipeline is used (the default), the
GPU cache/memory release with its settling delay is invoked on every exit
path — success (inside `run_real_pipeline`), subprocess failure, missing
outputs, and timeout (via `_cleanup_after_error`) — before the task
finishes; a failing dummy run also cleans up, and only the successful
dummy run skips the release step. -/
theorem real_pipeline_always_cleans_up :
    (∀ (o : PipelineOutcome) (tS tE : ℚ), 1 ≤ cleanupCount (taskEvents (.real o) tS tE)) ∧
    (∀ (d : String) (tS tE : ℚ), 1 ≤ cleanupCount (taskEvents (.dummy (.readFailed d)) tS tE)) := by
  constructor
  · intro o tS tE
    cases o <;>
      simp [taskEvents, pipelineEvents, realPipelineEvents, pipelineResult,
        realPipelineException, cleanupCount]
  · intro d tS tE
    simp [taskEvents, pipelineEvents, dummyPipelineEvents, pipelineResult, cleanupCount]

/-- C3 counterexample.  The task's failure handling re-raises every
exception to Celery — its only retry/requeue trigger — regardless of
classification: a failure classified as the non-retryable
`INVALID_FORMAT` is re-raised exactly like a transient one, so the
claimed restriction of retry to transient infrastructure failures is
false. -/
theorem invalid_format_failure_is_reraised :
    ((handleTaskFailure ⟨"ValueError", "Failed to read input image: invalid format", none⟩).errorCode
        = .INVALID_FORMAT ∧
      (handleTaskFailure ⟨"ValueError", "Failed to read input image: invalid format", none⟩).reraised
        = true) ∧
    ¬ (∀ e : ExceptionInfo, (handleTaskFailure e).reraised = true →
        isTransientCode (handleTaskFailure e).errorCode = true) := by
  refine ⟨by decide, fun h => ?_⟩
  have h2 := h ⟨"ValueError", "Failed to read input image: invalid format", none⟩ (by decide)
  revert h2; decide

/-- C3 (amended).  The configured retry budget is 2
(`max_retries=2`/`task_max_retries=2`), but the task applies one uniform
disposition to every failure: persist the classified error, clean up,
and re-raise; it never distinguishes retryable from non-retryable
failures, so no classification-gated requeue exists. -/
theorem failure_disposition_uniform :
    celery_task_max_retries = 2 ∧
    (∀ e : ExceptionInfo, handleTaskFailure e = ⟨taskErrorCode e, true, true⟩) ∧
    (∀ e e' : ExceptionInfo,
      (handleTaskFailure e).reraised = (handleTaskFailure e').reraised ∧
      (handleTaskFailure e).cleanupCalled = (handleTaskFailure e').cleanupCalled) :=
  ⟨rfl, fun _ => rfl, fun _ _ => ⟨rfl, rfl⟩⟩

/-- C6 counterexample.  Feeding the loop a line recognized as step 10
(`done`, 100 percent) followed by one recognized as step 2
(`preprocessing`, 20 percent) persists the sequence `[100, 20]`: the
persisted `progress_percent` values regress, so monotonicity is false. -/
theorem progress_percent_regression :
    persistedPercents ["done".toList, "preprocessing".toList] = [100, 20] ∧
    ¬ List.Chain' (fun a b => a ≤ b)
        (persistedPercents ["done".toList, "preprocessing".toList]) := by
  have hp : persistedPercents ["done".toList, "preprocessing".toList] = [100, 20] := by decide
  refine ⟨hp, ?_⟩
  rw [hp]
  simp [List.chain'_cons]

/-- C6 (amended).  Each persisted `progress_percent` is exactly
`int(100 * step / total)` of the newest recognized update, with only
equal-consecutive suppression and no max-so-far clamping, so the
persisted sequence follows the recognized updates and regresses whenever
a later recognized update has a smaller step/total ratio. -/
theorem persisted_percents_characterization (lines : List (List Char)) :
    persistedPercents lines =
      (dedupAux none (lines.filterMap parse_progress_line)).map callbackPercent :=
  lineLoopAux_eq_dedup lines none

/-- C9.  `parse_error_from_output` scans the lowercased text for the
phrase groups in the fixed priority order GPU_OOM, TIMEOUT,
FILE_NOT_FOUND, INVALID_FORMAT, DICOM_ERROR, SEGMENTATION_FAILED,
NSM_FAILED, CONFIG_ERROR and falls back to PIPELINE_ERROR when no group
matches, so every input is classified; the two concrete examples evaluate
as the spec states. -/
theorem classify_output_priority_and_fallback :
    (∀ t, anyPhrase (pyLower t) gpuPhrases = true →
      parse_error_from_output t = .GPU_OOM) ∧
    (∀ t, anyPhrase (pyLower t) gpuPhrases = false →
      containsSub (pyLower t) "timeout".toList = true →
      parse_error_from_output t = .TIMEOUT) ∧
    (∀ t, anyPhrase (pyLower t) gpuPhrases = false →
      containsSub (pyLower t) "timeout".toList = false →
      anyPhrase (pyLower t) notFoundPhrases = true →
      parse_error_from_output t = .FILE_NOT_FOUND) ∧
    (∀ t, anyPhrase (pyLower t) gpuPhrases = false →
      containsSub (pyLower t) "timeout".toList = false →
      anyPhrase (pyLower t) notFoundPhrases = false →
      anyPhrase (pyLower t) invalidFormatPhrases = true →
      parse_error_from_output t = .INVALID_FORMAT) ∧
    (∀ t, anyPhrase (pyLower t) gpuPhrases = false →
      containsSub (pyLower t) "timeout".toList = false →
      anyPhrase (pyLower t) notFoundPhrases = false →
      anyPhrase (pyLower t) invalidFormatPhrases = false →
      anyPhrase (pyLower t) dicomPhrases = true →
      parse_error_from_output t = .DICOM_ERROR) ∧
    (∀ t, anyPhrase (pyLower t) gpuPhrases = false →
      containsSub (pyLower t) "timeout".toList = false →
      anyPhrase (pyLower t) notFoundPhrases = false →
      anyPhrase (pyLower t) invalidFormatPhrases = false →
      anyPhrase (pyLower t) dicomPhrases = false →
      anyPhrase (pyLower t) segmentationPhrases = true →
      parse_error_from_output t = .SEGMENTATION_FAILED) ∧
    (∀ t, anyPhrase (pyLower t) gpuPhrases = false →
      containsSub (pyLower t) "timeout".toList = false →
      anyPhrase (pyLower t) notFoundPhrases = false →
      anyPhrase (pyLower t) invalidFormatPhrases = false →
      anyPhrase (pyLower t) dicomPhrases = false →
      anyPhrase (pyLower t) segmentationPhrases = false →
      anyPhrase (pyLower t) nsmPhrases = true →
      parse_error_from_output t = .NSM_FAILED) ∧
    (∀ t, anyPhrase (pyLower t) gpuPhrases = false →
      containsSub (pyLower t) "timeout".toList = false →
      anyPhrase (pyLower t) notFoundPhrases = false →
      anyPhrase (pyLower t) invalidFormatPhrases = false →
      anyPhrase (pyLower t) dicomPhrases = false →
      anyPhrase (pyLower t) segmentationPhrases = false →
      anyPhrase (pyLower t) nsmPhrases = false →
      anyPhrase (pyLower t) configPhrases = true →
      parse_error_from_output t = .CONFIG_ERROR) ∧
    (∀ t, anyPhrase (pyLower t) gpuPhrases = false →
      containsSub (pyLower t) "timeout".toList = false →
      anyPhrase (pyLower t) notFoundPhrases = false →
      anyPhrase (pyLower t) invalidFormatPhrases = false →
      anyPhrase (pyLower t) dicomPhrases = false →
      anyPhrase (pyLower t) segmentationPhrases = false →
      anyPhrase (pyLower t) nsmPhrases = false →
      anyPhrase (pyLower t) configPhrases = false →
      parse_error_from_output t = .PIPELINE_ERROR) ∧
    parse_error_from_output "CUDA out of memory. Tried to allocate 2.00 GiB".toList = .GPU_OOM ∧
    parse_error_from_output "some unrelated text".toList = .PIPELINE_ERROR := by
  refine ⟨?_, ?_, ?_, ?_, ?_, ?_, ?_, ?_, ?_, by decide, by decide⟩ <;>
    (intro t; intros; simp_all [parse_error_from_output])

/-- C9 witness: the cascade instantiated at concrete inputs reaching the
second and the eighth group. -/
theorem classify_output_priority_and_fallback_witness :
    parse_error_from_output "connection timeout".toList = .TIMEOUT ∧
    parse_error_from_output "missing config file".toList = .CONFIG_ERROR :=
  ⟨classify_output_priority_and_fallback.2.1 _ (by decide) (by decide),
   classify_output_priority_and_fallback.2.2.2.2.2.2.2.1 _ (by decide) (by decide)
     (by decide) (by decide) (by decide) (by decide) (by decide) (by decide)⟩

/-- C10.  Invoking the pipeline task with a job id absent from the job
store raises the job-not-found error before any state change: the final
store is exactly the initial one (jobs hash, queue index, and rolling
duration history untouched) and no store event is performed. -/
theorem missing_job_leaves_store_unchanged (st : Store) (job_id : String)
    (run : PipelineRun) (tS tE : ℚ) (h : Job.load st job_id = none) :
    process_pipeline st job_id run tS tE = ⟨st, [], true, true⟩ := by
  simp [process_pipeline, h]

/-- C10 witness: the not-found path on a concrete empty store. -/
theorem missing_job_leaves_store_unchanged_witness :
    process_pipeline emptyStore "missing-id" (.dummy (.success "r.zip" 1)) 0 1 =
      ⟨emptyStore, [], true, true⟩ :=
  missing_job_leaves_store_unchanged emptyStore "missing-id" _ 0 1 (by decide)

/-- Python `int()` of an integer-valued rational is that integer. -/
theorem pyInt_intCast (n : ℤ) : pyInt (n : ℚ) = n := by
  unfold pyInt
  split
  · exact Int.floor_intCast n
  · exact Int.ceil_intCast n

/-- C7.  The Wait Estimator contract: empty history averages to the
240-second default, a non-empty (≤ 20 entry) history averages to its
arithmetic mean, the wait estimate is the truncated product of position
and average, recording pushes to the front and keeps the 20 most recent
entries, and the two concrete scenarios of the spec evaluate as stated. -/
theorem wait_estimator_contract :
    get_average_processing_time [] = 240 ∧
    (∀ ts : List ℚ, ts ≠ [] → ts.length ≤ 20 →
      get_average_processing_time ts = ts.sum / ts.length) ∧
    (∀ (p : ℤ) (ts : List ℚ),
      get_estimated_wait p ts = pyInt (p * get_average_processing_time ts)) ∧
    (∀ (d : ℚ) (ts : List ℚ),
      record_processing_time d ts = (d :: ts).take 20 ∧
      (record_processing_time d ts).length = min (ts.length + 1) 20 ∧
      (record_processing_time d ts).head? = some d) ∧
    (∀ p : ℤ, get_estimated_wait p [] = p * 240) ∧
    get_average_processing_time
      (record_processing_time 300 (record_processing_time 200 (record_processing_time 100 []))) =
      200 ∧
    get_estimated_wait 3
      (record_processing_time 300 (record_processing_time 200 (record_processing_time 100 []))) =
      600 := by
  have havg : get_average_processing_time
      (record_processing_time 300 (record_processing_time 200 (record_processing_time 100 []))) =
      200 := by
    norm_num [get_average_processing_time, record_processing_time]
  refine ⟨by norm_num [get_average_processing_time], ?_, fun p ts => rfl, ?_, ?_, havg, ?_⟩
  · intro ts h1 h2
    simp [get_average_processing_time, List.take_of_length_le h2, List.isEmpty_iff, h1]
  · intro d ts
    refine ⟨rfl, ?_, ?_⟩
    · simp only [record_processing_time, List.length_take, List.length_cons]
      omega
    · simp [record_processing_time]
  · intro p
    have h240 : get_average_processing_time [] = 240 := by
      norm_num [get_average_processing_time]
    have hcast : (p : ℚ) * get_average_processing_time [] = ((p * 240 : ℤ) : ℚ) := by
      rw [h240]; push_cast; ring
    rw [get_estimated_wait, hcast, pyInt_intCast]
  · rw [get_estimated_wait, havg]
    have hcast : ((3 : ℤ) : ℚ) * 200 = ((600 : ℤ) : ℚ) := by norm_num
    rw [hcast, pyInt_intCast]

/-- C7 witness: the mean branch at a singleton history and the
empty-history estimate at position 2. -/
theorem wait_estimator_contract_witness :
    get_average_processing_time [100] = 100 ∧ get_estimated_wait 2 [] = 480 := by
  constructor
  · have h := wait_estimator_contract.2.1 [100] (by simp) (by simp)
    rw [h]; norm_num
  · have h := wait_estimator_contract.2.2.2.2.1 2
    rw [h]; norm_num

/-- One event preserves the invariant of a dequeued, non-queued job:
its status stays away from `queued`, it stays out of the queue index,
and the persisted record tracks the in-memory job. -/
theorem step_preserves_nonqueued (ts : TaskState) (ev : Ev)
    (h1 : ts.job.status ≠ "queued")
    (h2 : ts.store.job_queue.mem ts.job.id = false)
    (h3 : Job.load ts.store ts.job.id = some ts.job) :
    (applyEv ts ev).job.status ≠ "queued" ∧
    (applyEv ts ev).store.job_queue.mem (applyEv ts ev).job.id = false ∧
    Job.load (applyEv ts ev).store (applyEv ts ev).job.id = some (applyEv ts ev).job := by
  cases ev with
  | startProcessing t =>
    refine ⟨by simp [applyEv], ?_, ?_⟩
    · simp [applyEv, Job.save, Job.delete_from_queue, zset_mem_remove_self]
    · simp [applyEv, Job.save, Job.delete_from_queue, Job.load, hget_hset_self]
  | progress step total name =>
    refine ⟨by simpa [applyEv] using h1, ?_, ?_⟩
    · simpa [applyEv, Job.save, h1] using h2
    · simp [applyEv, Job.save, h1, Job.load, hget_hset_self]
  | markComplete t path size =>
    refine ⟨by simp [applyEv], ?_, ?_⟩
    · simpa [applyEv, Job.save] using h2
    · simp [applyEv, Job.save, Job.load, hget_hset_self]
  | markError code msg =>
    refine ⟨by simp [applyEv], ?_, ?_⟩
    · simpa [applyEv, Job.save] using h2
    · simp [applyEv, Job.save, Job.load, hget_hset_self]
  | recordStats d =>
    refine ⟨h1, by simpa [applyEv] using h2, by simpa [applyEv, Job.load] using h3⟩
  | cleanup =>
    exact ⟨h1, h2, h3⟩

/-- The invariant of `step_preserves_nonqueued` holds in every state
reached from a state satisfying it. -/
theorem nonqueued_invariant (evs : List Ev) : ∀ ts : TaskState,
    ts.job.status ≠ "queued" → ts.store.job_queue.mem ts.job.id = false →
    Job.load ts.store ts.job.id = some ts.job →
    ∀ s ∈ runStates ts evs,
      s.job.status ≠ "queued" ∧ s.store.job_queue.mem s.job.id = false ∧
      Job.load s.store s.job.id = some s.job := by
  induction evs with
  | nil => intro ts _ _ _ s hs; simp [runStates] at hs
  | cons ev rest ih =>
    intro ts h1 h2 h3 s hs
    simp only [runStates, List.mem_cons] at hs
    obtain ⟨p1, p2, p3⟩ := step_preserves_nonqueued ts ev h1 h2 h3
    rcases hs with rfl | hs
    · exact ⟨p1, p2, p3⟩
    · exact ih (applyEv ts ev) p1 p2 p3 s hs

/-- The in-memory job id is constant across a run. -/
theorem runStates_job_id (evs : List Ev) : ∀ ts : TaskState,
    ∀ s ∈ runStates ts evs, s.job.id = ts.job.id := by
  induction evs with
  | nil => intro ts s hs; simp [runStates] at hs
  | cons ev rest ih =>
    intro ts s hs
    simp only [runStates, List.mem_cons] at hs
    rcases hs with rfl | hs
    · exact applyEv_job_id ts ev
    · rw [ih (applyEv ts ev) s hs, applyEv_job_id]

/-- C5.  A job saved in the `queued` state is in the Queue Index, and
across every state of a task run the id is in the index exactly when the
persisted status is `queued`: the queued-to-processing block removes it
(exactly one removal per run) and no later event re-adds it or returns
the status to `queued`. -/
theorem queue_membership_iff_queued (st0 : Store) (j : JobRecord) (run : PipelineRun)
    (tS tE : ℚ) (hq : j.status = "queued") :
    ((Job.save st0 j).job_queue.mem j.id = true ↔
      jobStatus (Job.save st0 j) j.id = some "queued") ∧
    (∀ s ∈ runStates ⟨Job.save st0 j, j⟩ (taskEvents run tS tE),
      (s.store.job_queue.mem j.id = true ↔ jobStatus s.store j.id = some "queued")) ∧
    queueRemovalCount (taskEvents run tS tE) = 1 := by
  refine ⟨?_, ?_, ?_⟩
  · have hmem : (Job.save st0 j).job_queue.mem j.id = true := by
      simp [Job.save, hq, zset_mem_add_self]
    have hstat : jobStatus (Job.save st0 j) j.id = some "queued" := by
      simp [jobStatus, Job.load, Job.save, hq, hget_hset_self]
    exact iff_of_true hmem hstat
  · intro s hs
    have hte : taskEvents run tS tE =
        Ev.startProcessing tS ::
          (pipelineEvents run ++
            match pipelineResult run with
            | .ok (path, size) => [.markComplete tE path size, .recordStats (tE - tS)]
            | .error e => [.markError (taskErrorCode e) (combined_job_message (taskErrorCode e)),
                           .cleanup]) := rfl
    rw [hte] at hs
    simp only [runStates, List.mem_cons] at hs
    have hid1 : (applyEv ⟨Job.save st0 j, j⟩ (.startProcessing tS)).job.id = j.id :=
      applyEv_job_id _ _
    have p1 : (applyEv ⟨Job.save st0 j, j⟩ (.startProcessing tS)).job.status ≠ "queued" := by
      simp [applyEv]
    have p2 : (applyEv ⟨Job.save st0 j, j⟩ (.startProcessing tS)).store.job_queue.mem
        (applyEv ⟨Job.save st0 j, j⟩ (.startProcessing tS)).job.id = false := by
      simp [applyEv, Job.save, Job.delete_from_queue, zset_mem_remove_self]
    have p3 : Job.load (applyEv ⟨Job.save st0 j, j⟩ (.startProcessing tS)).store
        (applyEv ⟨Job.save st0 j, j⟩ (.startProcessing tS)).job.id =
        some (applyEv ⟨Job.save st0 j, j⟩ (.startProcessing tS)).job := by
      simp [applyEv, Job.save, Job.delete_from_queue, Job.load, hget_hset_self]
    rcases hs with rfl | hs
    · rw [← hid1]
      constructor
      · intro hmem; rw [p2] at hmem; exact absurd hmem (by simp)
      · intro hstat
        rw [jobStatus, p3] at hstat
        simp only [Option.map_some', Option.some_inj] at hstat
        exact absurd hstat p1
    · obtain ⟨q1, q2, q3⟩ := nonqueued_invariant _ _ p1 p2 p3 s hs
      have hid : s.job.id = j.id := by
        rw [runStates_job_id _ _ s hs, hid1]
      rw [← hid]
      constructor
      · intro hmem; rw [q2] at hmem; exact absurd hmem (by simp)
      · intro hstat
        rw [jobStatus, q3] at hstat
        simp only [Option.map_some', Option.some_inj] at hstat
        exact absurd hstat q1
  · cases run with
    | real o =>
      cases o <;>
        simp [taskEvents, queueRemovalCount, pipelineEvents, realPipelineEvents,
          pipelineResult, realPipelineException]
    | dummy o =>
      cases o <;>
        simp [taskEvents, queueRemovalCount, pipelineEvents, dummyPipelineEvents,
          pipelineResult]

/-- C5 witness: the invariant instantiated on a concrete queued job and
a successful dummy run. -/
theorem queue_membership_iff_queued_witness :
    ((Job.save emptyStore jobA).job_queue.mem jobA.id = true ↔
      jobStatus (Job.save emptyStore jobA) jobA.id = some "queued") ∧
    queueRemovalCount (taskEvents (.dummy (.success "r.zip" 1)) 0 1) = 1 :=
  ⟨(queue_membership_iff_queued emptyStore jobA (.dummy (.success "r.zip" 1)) 0 1 rfl).1,
   (queue_membership_iff_queued emptyStore jobA (.dummy (.success "r.zip" 1)) 0 1 rfl).2.2⟩

/-- C4.  Starting from a `queued` job, the persisted status sequence of
one task run steps only along
`queued → processing → complete` or `queued → processing → error`, the
run ends in a terminal status, and once the in-memory record reaches a
terminal status no later event mutates any of its fields. -/
theorem status_transitions_along_lifecycle (st : Store) (j : JobRecord)
    (run : PipelineRun) (tS tE : ℚ) (hq : j.status = "queued") :
    List.Chain' allowedTransition (statusTraceOf st j run tS tE) ∧
    List.Chain' (fun s1 s2 : TaskState => terminalStatus s1.job.status → s2.job = s1.job)
      (runStates ⟨st, j⟩ (taskEvents run tS tE)) ∧
    terminalStatus (runEvents ⟨st, j⟩ (taskEvents run tS tE)).job.status := by
  cases run with
  | real o =>
    cases o <;>
      refine ⟨?_, ?_, ?_⟩ <;>
        simp [statusTraceOf, taskEvents, pipelineEvents, realPipelineEvents, pipelineResult,
          realPipelineException, runStates, runEvents, applyEv, hq, allowedTransition,
          terminalStatus, List.chain'_cons]
  | dummy o =>
    cases o <;>
      refine ⟨?_, ?_, ?_⟩ <;>
        simp [statusTraceOf, taskEvents, pipelineEvents, dummyPipelineEvents, pipelineResult,
          runStates, runEvents, applyEv, hq, allowedTransition, terminalStatus,
          List.chain'_cons]

/-- C4 witness: the transition chain on a concrete queued job and a
successful real-pipeline run. -/
theorem status_transitions_along_lifecycle_witness :
    List.Chain' allowedTransition
      (statusTraceOf emptyStore jobA (.real (.success "r.zip" 1)) 0 1) ∧
    terminalStatus
      (runEvents ⟨emptyStore, jobA⟩ (taskEvents (.real (.success "r.zip" 1)) 0 1)).job.status :=
  ⟨(status_transitions_along_lifecycle emptyStore jobA (.real (.success "r.zip" 1)) 0 1 rfl).1,
   (status_transitions_along_lifecycle emptyStore jobA (.real (.success "r.zip" 1)) 0 1 rfl).2.2⟩

/-- C8 counterexample.  Enqueuing jobs `c`, `b`, `a` in that order with
equal (hence non-decreasing) timestamps yields ranks 3, 2, 1 — Redis
breaks score ties lexicographically by member, so the first-enqueued job
`c` gets rank 3, not the rank 1 the FIFO claim predicts. -/
theorem equal_timestamp_rank_inversion :
    get_queue_position "c" (((ZSet.empty.add "c" 1).add "b" 1).add "a" 1) = 3 ∧
    get_queue_position "b" (((ZSet.empty.add "c" 1).add "b" 1).add "a" 1) = 2 ∧
    get_queue_position "a" (((ZSet.empty.add "c" 1).add "b" 1).add "a" 1) = 1 ∧
    (3 : Nat) ≠ 1 := by
  have l1 : decide ((['a'] : List Char) < ['c']) = true := by decide
  have l2 : decide ((['b'] : List Char) < ['c']) = true := by decide
  have l3 : decide ((['a'] : List Char) < ['b']) = true := by decide
  have l4 : decide ((['c'] : List Char) < ['b']) = false := by decide
  have l5 : decide ((['b'] : List Char) < ['a']) = false := by decide
  have l6 : decide ((['c'] : List Char) < ['a']) = false := by decide
  have l7 : decide ((['a'] : List Char) < ['a']) = false := by decide
  have l8 : decide ((['b'] : List Char) < ['b']) = false := by decide
  have l9 : decide ((['c'] : List Char) < ['c']) = false := by decide
  have r1 : decide ((1 : ℚ) < 1) = false := decide_eq_false (lt_irrefl _)
  refine ⟨?_, ?_, ?_, by decide⟩ <;>
    simp [get_queue_position, ZSet.rank, ZSet.score, ZSet.add, ZSet.empty, zBefore,
      List.find?, List.filter, l1, l2, l3, l4, l5, l6, l7, l8, l9, r1]

/-- C8 (amended).  `get_queue_position` is the 1-indexed rank in the
Redis order (ascending score, score ties broken lexicographically by
id) and 0 for an absent id; enqueuing three distinct jobs with strictly
increasing timestamps yields ranks 1, 2, 3 in submission order. -/
theorem queue_rank_fifo (a b c : String) (ta tb tc : ℚ)
    (hab : a ≠ b) (hac : a ≠ c) (hbc : b ≠ c)
    (hta : ta < tb) (htb : tb < tc) :
    get_queue_position a (((ZSet.empty.add a ta).add b tb).add c tc) = 1 ∧
    get_queue_position b (((ZSet.empty.add a ta).add b tb).add c tc) = 2 ∧
    get_queue_position c (((ZSet.empty.add a ta).add b tb).add c tc) = 3 ∧
    (∀ (z : ZSet) (m : String), z.score m = none → get_queue_position m z = 0) := by
  have hz : (((ZSet.empty.add a ta).add b tb).add c tc).entries =
      [(c, tc), (b, tb), (a, ta)] := by
    simp [ZSet.add, ZSet.empty, List.filter, hab, hac, hbc]
  have hba : ((b : String) == a) = false := by simp [Ne.symm hab]
  have hca : ((c : String) == a) = false := by simp [Ne.symm hac]
  have hcb : ((c : String) == b) = false := by simp [Ne.symm hbc]
  have htac : ta < tc := hta.trans htb
  have d1 : decide (tc < ta) = false := decide_eq_false (not_lt.mpr htac.le)
  have d2 : decide (tb < ta) = false := decide_eq_false (not_lt.mpr hta.le)
  have d3 : decide (ta < ta) = false := decide_eq_false (lt_irrefl ta)
  have d4 : decide (tc < tb) = false := decide_eq_false (not_lt.mpr htb.le)
  have d5 : decide (tb < tb) = false := decide_eq_false (lt_irrefl tb)
  have d6 : decide (ta < tb) = true := decide_eq_true hta
  have d7 : decide (tc < tc) = false := decide_eq_false (lt_irrefl tc)
  have d8 : decide (tb < tc) = true := decide_eq_true htb
  have d9 : decide (ta < tc) = true := decide_eq_true htac
  have b1 : ((tc : ℚ) == ta) = false := by simp [(ne_of_gt htac : tc ≠ ta)]
  have b2 : ((tb : ℚ) == ta) = false := by simp [(ne_of_gt hta : tb ≠ ta)]
  have b3 : ((tc : ℚ) == tb) = false := by simp [(ne_of_gt htb : tc ≠ tb)]
  have s1 : decide (a < a) = false := decide_eq_false (lt_irrefl a)
  have s2 : decide (b < b) = false := decide_eq_false (lt_irrefl b)
  have s3 : decide (c < c) = false := decide_eq_false (lt_irrefl c)
  refine ⟨?_, ?_, ?_, ?_⟩
  · simp [get_queue_position, ZSet.rank, ZSet.score, ZSet.add, ZSet.empty, List.find?,
      List.filter, zBefore, hab, hac, hbc, hba, hca, hcb, d1, d2, d3, d4, d5, d6, d7, d8,
      d9, b1, b2, b3, s1, s2, s3]
  · simp [get_queue_position, ZSet.rank, ZSet.score, ZSet.add, ZSet.empty, List.find?,
      List.filter, zBefore, hab, hac, hbc, hba, hca, hcb, d1, d2, d3, d4, d5, d6, d7, d8,
      d9, b1, b2, b3, s1, s2, s3]
  · simp [get_queue_position, ZSet.rank, ZSet.score, ZSet.add, ZSet.empty, List.find?,
      List.filter, zBefore, hab, hac, hbc, hba, hca, hcb, d1, d2, d3, d4, d5, d6, d7, d8,
      d9, b1, b2, b3, s1, s2, s3]
  · intro z m h
    simp [get_queue_position, ZSet.rank, h]

/-- C8 witness: three concrete jobs enqueued at strictly increasing
timestamps get ranks 1, 2, 3, and an unknown id gets rank 0. -/
theorem queue_rank_fifo_witness :
    get_queue_position "job-1"
      (((ZSet.empty.add "job-1" 1).add "job-2" 2).add "job-3" 3) = 1 ∧
    get_queue_position "job-2"
      (((ZSet.empty.add "job-1" 1).add "job-2" 2).add "job-3" 3) = 2 ∧
    get_queue_position "job-3"
      (((ZSet.empty.add "job-1" 1).add "job-2" 2).add "job-3" 3) = 3 ∧
    get_queue_position "absent" ZSet.empty = 0 := by
  obtain ⟨w1, w2, w3, w4⟩ :=
    queue_rank_fifo "job-1" "job-2" "job-3" 1 2 3 (by decide) (by decide) (by decide)
      (by norm_num) (by norm_num)
  exact ⟨w1, w2, w3, w4 ZSet.empty "absent" rfl⟩

end KneePipeline
